/-
Verification of the BotBuilder Python SDK
(src/server/sdk-templates/python/botbuilder/__init__.py).

The SDK is a thin HTTP client: a top-level `BotBuilder` client resolving an
API key from an argument or the BOTBUILDER_API_KEY environment variable,
a shared `requests.Session` carrying default headers, a `_request` helper
concatenating the base URL and an endpoint path and dispatching one HTTP
call, and five resource facades mapping verb-shaped methods onto REST
endpoints.

The embedding below is shallow: the network is a function from requests to
final responses, and every operation also reports the list of requests it
hands to `session.request`, so frame properties (exactly one request, no
request during construction) are stated about that list.
-/
import Mathlib

set_option autoImplicit false

namespace BotBuilderSdk

/-- JSON values, the shape of request and response bodies.  The SDK treats
them as opaque dynamically-shaped data (`response.json()` output and the
`json=` keyword payloads). -/
inductive Json where
  | null : Json
  | bool (b : Bool) : Json
  | num (n : Int) : Json
  | str (s : String) : Json
  | arr (elems : List Json) : Json
  | obj (fields : List (String × Json)) : Json

/-- The module version string, `__version__ = "1.0.0"`. -/
def SDK_version : String := "1.0.0"

/-- The slice of the process environment the SDK reads:
`os.environ.get("BOTBUILDER_API_KEY")`. -/
structure Env where
  botbuilder_api_key : Option String

/-- Python truthiness of an optional string: `None` and `""` are falsy. -/
def strOptTruthy : Option String → Bool
  | none => false
  | some s => decide (s ≠ "")

/-- Python `a or b` on optional strings: `a` when `a` is truthy, else `b`.
Embeds `api_key or os.environ.get("BOTBUILDER_API_KEY")`. -/
def pyOrStr (a b : Option String) : Option String :=
  if strOptTruthy a then a else b

/-- Character-list form of `str.rstrip("/")`: drop every trailing '/'. -/
def rstripSlashAux (cs : List Char) : List Char :=
  (cs.reverse.dropWhile (fun c => c = '/')).reverse

/-- Python `base_url.rstrip("/")`: removes every trailing '/' character. -/
def pyRstripSlash (s : String) : String :=
  String.mk (rstripSlashAux s.data)

/-- One HTTP request as handed to `session.request(method, url, **kwargs)`:
the verb, the full URL, the session headers attached to the call, the
per-request timeout, and the optional `params=`, `json=`, `files=` and
`data=` keyword payloads (absent ones are empty). -/
structure Request where
  method : String
  url : String
  headers : List (String × String)
  timeout : Nat
  params : List (String × String)
  jsonBody : Option Json
  files : List (String × String)
  formData : List (String × String)

/-- The constructed client state: resolved API key, stored base URL
(trailing slashes stripped) and timeout, as set by `BotBuilder.__init__`. -/
structure BotBuilder where
  api_key : String
  base_url : String
  timeout : Nat

/-- The default headers installed on the shared session by
`self.session.headers.update(...)`: bearer token, JSON content type and
the client-identifier string. -/
def BotBuilder.sessionHeaders (c : BotBuilder) : List (String × String) :=
  [("Authorization", "Bearer " ++ c.api_key),
   ("Content-Type", "application/json"),
   ("User-Agent", "BotBuilder-SDK-Python/" ++ SDK_version)]

/-- The configuration error raised by the constructor (`ValueError`). -/
inductive ConstructError where
  | valueError (msg : String)

/-- The message of the `ValueError` raised when no API key is available. -/
def apiKeyErrorMsg : String :=
  "API key is required. Set it via api_key parameter or BOTBUILDER_API_KEY env variable."

/-- Default `base_url` constructor argument. -/
def default_base_url : String := "https://api.botbuilder.com"

/-- Default `timeout` constructor argument, in seconds. -/
def default_timeout : Nat := 30

/-- Embeds `BotBuilder.__init__`: resolves the API key with Python `or`
against the environment, strips trailing slashes from the base URL, stores
the timeout, and raises `ValueError` when the resolved key is falsy.  The
second component of a successful result is the list of HTTP requests issued
during construction; the constructor body never calls `session.request`,
so it is empty. -/
def BotBuilder.init (api_key : Option String) (base_url : String) (timeout : Nat)
    (env : Env) : Except ConstructError (BotBuilder × List Request) :=
  match pyOrStr api_key env.botbuilder_api_key with
  | none => Except.error (ConstructError.valueError apiKeyErrorMsg)
  | some k =>
      if k = "" then Except.error (ConstructError.valueError apiKeyErrorMsg)
      else
        Except.ok ({ api_key := k, base_url := pyRstripSlash base_url, timeout := timeout }, [])

/-- A final HTTP response as seen by `_request`: status code and decoded
JSON body (the spec treats bodies as JSON documents throughout). -/
structure HttpResponse where
  status : Nat
  body : Json

/-- The error raised on an erroneous HTTP status (`requests.HTTPError`),
exposing the status and the response body. -/
inductive HttpError where
  | httpError (status : Nat) (body : Json)

/-- Modelled after `requests.Response.raise_for_status` (the external HTTP
library called on line 50): it raises `HTTPError` exactly for 4xx client
errors and 5xx server errors; any other status, including 3xx, passes. -/
def raise_for_status (r : HttpResponse) : Except HttpError Unit :=
  if 400 ≤ r.status ∧ r.status < 600 then
    Except.error (HttpError.httpError r.status r.body)
  else Except.ok ()

/-- The request `_request` builds: URL is the exact concatenation of the
stored base URL and the endpoint, headers are the session headers, and the
timeout is forced to the configured one (`kwargs["timeout"] = self.timeout`). -/
def BotBuilder.mkRequest (c : BotBuilder) (method endpoint : String)
    (params : List (String × String)) (jsonBody : Option Json)
    (files : List (String × String)) (formData : List (String × String)) : Request :=
  { method := method
    url := c.base_url ++ endpoint
    headers := c.sessionHeaders
    timeout := c.timeout
    params := params
    jsonBody := jsonBody
    files := files
    formData := formData }

/-- Embeds `BotBuilder._request`: build the request, dispatch it through the
network (`net` maps each request to its final response), call
`raise_for_status`, and return `response.json()`.  The second component is
the list of requests handed to `session.request`: always exactly one,
success or failure. -/
def BotBuilder.request (c : BotBuilder) (net : Request → HttpResponse)
    (method endpoint : String) (params : List (String × String)) (jsonBody : Option Json)
    (files : List (String × String)) (formData : List (String × String)) :
    Except HttpError Json × List Request :=
  let req := c.mkRequest method endpoint params jsonBody files formData
  let resp := net req
  ((raise_for_status resp).map (fun _ => resp.body), [req])

namespace BotsClient

/-- `bots.list(**params)` — GET /api/bots. -/
def list (c : BotBuilder) (net : Request → HttpResponse)
    (params : List (String × String)) : Except HttpError Json × List Request :=
  c.request net "GET" "/api/bots" params none [] []

/-- `bots.get(bot_id)` — GET /api/bots/{bot_id}. -/
def get (c : BotBuilder) (net : Request → HttpResponse)
    (bot_id : String) : Except HttpError Json × List Request :=
  c.request net "GET" ("/api/bots/" ++ bot_id) [] none [] []

/-- `bots.create(**data)` — POST /api/bots with JSON body. -/
def create (c : BotBuilder) (net : Request → HttpResponse)
    (data : List (String × Json)) : Except HttpError Json × List Request :=
  c.request net "POST" "/api/bots" [] (some (Json.obj data)) [] []

/-- `bots.update(bot_id, **data)` — PUT /api/bots/{bot_id} with JSON body. -/
def update (c : BotBuilder) (net : Request → HttpResponse)
    (bot_id : String) (data : List (String × Json)) : Except HttpError Json × List Request :=
  c.request net "PUT" ("/api/bots/" ++ bot_id) [] (some (Json.obj data)) [] []

/-- `bots.delete(bot_id)` — DELETE /api/bots/{bot_id}. -/
def delete (c : BotBuilder) (net : Request → HttpResponse)
    (bot_id : String) : Except HttpError Json × List Request :=
  c.request net "DELETE" ("/api/bots/" ++ bot_id) [] none [] []

end BotsClient

namespace MessagesClient

/-- `messages.send(**data)` — POST /api/messages with JSON body. -/
def send (c : BotBuilder) (net : Request → HttpResponse)
    (data : List (String × Json)) : Except HttpError Json × List Request :=
  c.request net "POST" "/api/messages" [] (some (Json.obj data)) [] []

/-- `messages.list(bot_id, **params)` — GET /api/bots/{bot_id}/messages. -/
def list (c : BotBuilder) (net : Request → HttpResponse)
    (bot_id : String) (params : List (String × String)) : Except HttpError Json × List Request :=
  c.request net "GET" ("/api/bots/" ++ bot_id ++ "/messages") params none [] []

/-- `messages.get(message_id)` — GET /api/messages/{message_id}. -/
def get (c : BotBuilder) (net : Request → HttpResponse)
    (message_id : String) : Except HttpError Json × List Request :=
  c.request net "GET" ("/api/messages/" ++ message_id) [] none [] []

end MessagesClient

namespace KnowledgeClient

/-- `knowledge.list(**params)` — GET /api/knowledge. -/
def list (c : BotBuilder) (net : Request → HttpResponse)
    (params : List (String × String)) : Except HttpError Json × List Request :=
  c.request net "GET" "/api/knowledge" params none [] []

/-- `knowledge.upload(file, **metadata)` — POST /api/knowledge/upload,
multipart: the file payload under field name "file" (`files = {"file": file}`)
and every keyword argument as a form field (`data=metadata`). -/
def upload (c : BotBuilder) (net : Request → HttpResponse)
    (file : String) (metadata : List (String × String)) : Except HttpError Json × List Request :=
  c.request net "POST" "/api/knowledge/upload" [] none [("file", file)] metadata

/-- `knowledge.delete(document_id)` — DELETE /api/knowledge/{document_id}. -/
def delete (c : BotBuilder) (net : Request → HttpResponse)
    (document_id : String) : Except HttpError Json × List Request :=
  c.request net "DELETE" ("/api/knowledge/" ++ document_id) [] none [] []

end KnowledgeClient

namespace AnalyticsClient

/-- `analytics.get_overview(**params)` — GET /api/analytics/overview. -/
def get_overview (c : BotBuilder) (net : Request → HttpResponse)
    (params : List (String × String)) : Except HttpError Json × List Request :=
  c.request net "GET" "/api/analytics/overview" params none [] []

/-- `analytics.get_messages(**params)` — GET /api/analytics/messages. -/
def get_messages (c : BotBuilder) (net : Request → HttpResponse)
    (params : List (String × String)) : Except HttpError Json × List Request :=
  c.request net "GET" "/api/analytics/messages" params none [] []

/-- `analytics.get_users(**params)` — GET /api/analytics/users. -/
def get_users (c : BotBuilder) (net : Request → HttpResponse)
    (params : List (String × String)) : Except HttpError Json × List Request :=
  c.request net "GET" "/api/analytics/users" params none [] []

end AnalyticsClient

namespace WebhooksClient

/-- `webhooks.list()` — GET /api/webhooks. -/
def list (c : BotBuilder) (net : Request → HttpResponse) :
    Except HttpError Json × List Request :=
  c.request net "GET" "/api/webhooks" [] none [] []

/-- `webhooks.create(**data)` — POST /api/webhooks with JSON body. -/
def create (c : BotBuilder) (net : Request → HttpResponse)
    (data : List (String × Json)) : Except HttpError Json × List Request :=
  c.request net "POST" "/api/webhooks" [] (some (Json.obj data)) [] []

/-- `webhooks.update(webhook_id, **data)` — PUT /api/webhooks/{webhook_id}. -/
def update (c : BotBuilder) (net : Request → HttpResponse)
    (webhook_id : String) (data : List (String × Json)) : Except HttpError Json × List Request :=
  c.request net "PUT" ("/api/webhooks/" ++ webhook_id) [] (some (Json.obj data)) [] []

/-- `webhooks.delete(webhook_id)` — DELETE /api/webhooks/{webhook_id}. -/
def delete (c : BotBuilder) (net : Request → HttpResponse)
    (webhook_id : String) : Except HttpError Json × List Request :=
  c.request net "DELETE" ("/api/webhooks/" ++ webhook_id) [] none [] []

end WebhooksClient

/-- A network answering every request with the same fixed response; used to
quantify over the response a given call receives. -/
def constNet (status : Nat) (body : Json) : Request → HttpResponse :=
  fun _ => { status := status, body := body }

/-- The verb and full URL of each request a call issued. -/
def issuedVerbUrls (out : Except HttpError Json × List Request) : List (String × String) :=
  out.2.map (fun r => (r.method, r.url))

/-- The header list of each request a call issued. -/
def issuedHeaders (out : Except HttpError Json × List Request) :
    List (List (String × String)) :=
  out.2.map Request.headers

/-- The timeout of each request a call issued. -/
def issuedTimeouts (out : Except HttpError Json × List Request) : List Nat :=
  out.2.map Request.timeout

/-- The full URL of each request a call issued. -/
def issuedUrls (out : Except HttpError Json × List Request) : List String :=
  out.2.map Request.url

/-- A concrete client, for instantiating universally quantified statements. -/
def cEx : BotBuilder :=
  { api_key := "k0", base_url := "https://api.botbuilder.com", timeout := 30 }

/-- A concrete JSON response body with exactly the keys id and name. -/
def bodyEx : Json :=
  Json.obj [("id", Json.str "b1"), ("name", Json.str "x")]

theorem request_snd_eq (c : BotBuilder) (net : Request → HttpResponse)
    (m e : String) (p : List (String × String)) (j : Option Json)
    (f d : List (String × String)) :
    (BotBuilder.request c net m e p j f d).2 = [c.mkRequest m e p j f d] := rfl

theorem request_fst_ok (c : BotBuilder) (status : Nat) (body : Json)
    (m e : String) (p : List (String × String)) (j : Option Json)
    (f d : List (String × String)) (h : status < 400) :
    (BotBuilder.request c (constNet status body) m e p j f d).1 = Except.ok body := by
  have hn : ¬ (400 ≤ status ∧ status < 600) := by omega
  simp [BotBuilder.request, constNet, raise_for_status, hn, Except.map]

theorem request_fst_err (c : BotBuilder) (status : Nat) (body : Json)
    (m e : String) (p : List (String × String)) (j : Option Json)
    (f d : List (String × String)) (h4 : 400 ≤ status) (h6 : status < 600) :
    (BotBuilder.request c (constNet status body) m e p j f d).1 =
      Except.error (HttpError.httpError status body) := by
  have hp : 400 ≤ status ∧ status < 600 := ⟨h4, h6⟩
  simp [BotBuilder.request, constNet, raise_for_status, hp, Except.map]

theorem init_ok_of_truthy (k base : String) (t : Nat) (env : Env) (h : k ≠ "") :
    BotBuilder.init (some k) base t env =
      Except.ok ({ api_key := k, base_url := pyRstripSlash base, timeout := t }, []) := by
  have h1 : strOptTruthy (some k) = true := by simp [strOptTruthy, h]
  have h2 : pyOrStr (some k) env.botbuilder_api_key = some k := by
    simp [pyOrStr, h1]
  simp [BotBuilder.init, h2, h]

theorem init_ok_of_env (k base : String) (t : Nat) (h : k ≠ "") :
    BotBuilder.init (some "") base t { botbuilder_api_key := some k } =
      Except.ok ({ api_key := k, base_url := pyRstripSlash base, timeout := t }, []) := by
  have h2 : pyOrStr (some "") (some k) = some k := by
    simp [pyOrStr, strOptTruthy]
  simp [BotBuilder.init, h2, h]

theorem rstripSlashAux_append_slash (cs : List Char) :
    rstripSlashAux (cs ++ ['/']) = rstripSlashAux cs := by
  simp [rstripSlashAux]

theorem pyRstripSlash_append_slash (base : String) :
    pyRstripSlash (base ++ "/") = pyRstripSlash base := by
  cases base with
  | mk l =>
      show String.mk (rstripSlashAux (l ++ ['/'])) = String.mk (rstripSlashAux l)
      rw [rstripSlashAux_append_slash]

/-- C1: Constructing the client with `api_key` absent and the
BOTBUILDER_API_KEY environment variable unset raises the configuration
`ValueError` synchronously during construction, for every combination of
base_url and timeout; the model of construction issues no request at all,
so the failure precedes any network activity. -/
theorem missing_api_key_raises_value_error (base_url : String) (timeout : Nat) :
    BotBuilder.init none base_url timeout { botbuilder_api_key := none } =
      Except.error (ConstructError.valueError apiKeyErrorMsg) := rfl

/-- C2: Every facade method issues exactly one HTTP request, with the
documented verb and the documented endpoint path with identifiers
substituted, appended to the stored base URL. -/
theorem facades_issue_one_documented_request (c : BotBuilder)
    (net : Request → HttpResponse) (b w d m : String)
    (params : List (String × String)) (data : List (String × Json))
    (file : String) (meta : List (String × String)) :
    issuedVerbUrls (BotsClient.get c net b) = [("GET", c.base_url ++ ("/api/bots/" ++ b))] ∧
    issuedVerbUrls (MessagesClient.list c net b params) =
      [("GET", c.base_url ++ ("/api/bots/" ++ b ++ "/messages"))] ∧
    issuedVerbUrls (WebhooksClient.update c net w data) =
      [("PUT", c.base_url ++ ("/api/webhooks/" ++ w))] ∧
    issuedVerbUrls (KnowledgeClient.delete c net d) =
      [("DELETE", c.base_url ++ ("/api/knowledge/" ++ d))] ∧
    issuedVerbUrls (BotsClient.list c net params) = [("GET", c.base_url ++ "/api/bots")] ∧
    issuedVerbUrls (BotsClient.create c net data) = [("POST", c.base_url ++ "/api/bots")] ∧
    issuedVerbUrls (BotsClient.update c net b data) =
      [("PUT", c.base_url ++ ("/api/bots/" ++ b))] ∧
    issuedVerbUrls (BotsClient.delete c net b) =
      [("DELETE", c.base_url ++ ("/api/bots/" ++ b))] ∧
    issuedVerbUrls (MessagesClient.send c net data) =
      [("POST", c.base_url ++ "/api/messages")] ∧
    issuedVerbUrls (MessagesClient.get c net m) =
      [("GET", c.base_url ++ ("/api/messages/" ++ m))] ∧
    issuedVerbUrls (KnowledgeClient.list c net params) =
      [("GET", c.base_url ++ "/api/knowledge")] ∧
    issuedVerbUrls (KnowledgeClient.upload c net file meta) =
      [("POST", c.base_url ++ "/api/knowledge/upload")] ∧
    issuedVerbUrls (AnalyticsClient.get_overview c net params) =
      [("GET", c.base_url ++ "/api/analytics/overview")] ∧
    issuedVerbUrls (AnalyticsClient.get_messages c net params) =
      [("GET", c.base_url ++ "/api/analytics/messages")] ∧
    issuedVerbUrls (AnalyticsClient.get_users c net params) =
      [("GET", c.base_url ++ "/api/analytics/users")] ∧
    issuedVerbUrls (WebhooksClient.list c net) = [("GET", c.base_url ++ "/api/webhooks")] ∧
    issuedVerbUrls (WebhooksClient.create c net data) =
      [("POST", c.base_url ++ "/api/webhooks")] ∧
    issuedVerbUrls (WebhooksClient.delete c net w) =
      [("DELETE", c.base_url ++ ("/api/webhooks/" ++ w))] :=
  ⟨rfl, rfl, rfl, rfl, rfl, rfl, rfl, rfl, rfl, rfl, rfl, rfl, rfl, rfl, rfl, rfl, rfl, rfl⟩

/-- C6: `knowledge.upload(file, category="faq")` issues a single multipart
POST to /api/knowledge/upload carrying the file payload under field name
"file" and the form field category = "faq"; more generally every keyword
argument to upload is sent as a form field. -/
theorem upload_sends_multipart_file_and_fields (c : BotBuilder)
    (net : Request → HttpResponse) (file : String) (meta : List (String × String)) :
    (KnowledgeClient.upload c net file [("category", "faq")]).2.map
        (fun r => (r.method, r.url, r.files, r.formData)) =
      [("POST", c.base_url ++ "/api/knowledge/upload", [("file", file)],
        [("category", "faq")])] ∧
    (KnowledgeClient.upload c net file meta).2.map Request.formData = [meta] :=
  ⟨rfl, rfl⟩

/-- C3: every request issued by any facade method carries the Authorization
Bearer header with the configured key, the JSON content-type header and the
client-identifier header (library name and version); each facade call
attaches exactly the session headers to its one request. -/
theorem all_requests_carry_default_headers (c : BotBuilder)
    (net : Request → HttpResponse) (b w d m : String)
    (params : List (String × String)) (data : List (String × Json))
    (file : String) (meta : List (String × String)) :
    (("Authorization", "Bearer " ++ c.api_key) ∈ c.sessionHeaders ∧
     ("Content-Type", "application/json") ∈ c.sessionHeaders ∧
     ("User-Agent", "BotBuilder-SDK-Python/" ++ SDK_version) ∈ c.sessionHeaders) ∧
    issuedHeaders (BotsClient.list c net params) = [c.sessionHeaders] ∧
    issuedHeaders (BotsClient.get c net b) = [c.sessionHeaders] ∧
    issuedHeaders (BotsClient.create c net data) = [c.sessionHeaders] ∧
    issuedHeaders (BotsClient.update c net b data) = [c.sessionHeaders] ∧
    issuedHeaders (BotsClient.delete c net b) = [c.sessionHeaders] ∧
    issuedHeaders (MessagesClient.send c net data) = [c.sessionHeaders] ∧
    issuedHeaders (MessagesClient.list c net b params) = [c.sessionHeaders] ∧
    issuedHeaders (MessagesClient.get c net m) = [c.sessionHeaders] ∧
    issuedHeaders (KnowledgeClient.list c net params) = [c.sessionHeaders] ∧
    issuedHeaders (KnowledgeClient.upload c net file meta) = [c.sessionHeaders] ∧
    issuedHeaders (KnowledgeClient.delete c net d) = [c.sessionHeaders] ∧
    issuedHeaders (AnalyticsClient.get_overview c net params) = [c.sessionHeaders] ∧
    issuedHeaders (AnalyticsClient.get_messages c net params) = [c.sessionHeaders] ∧
    issuedHeaders (AnalyticsClient.get_users c net params) = [c.sessionHeaders] ∧
    issuedHeaders (WebhooksClient.list c net) = [c.sessionHeaders] ∧
    issuedHeaders (WebhooksClient.create c net data) = [c.sessionHeaders] ∧
    issuedHeaders (WebhooksClient.update c net w data) = [c.sessionHeaders] ∧
    issuedHeaders (WebhooksClient.delete c net w) = [c.sessionHeaders] :=
  ⟨⟨by simp [BotBuilder.sessionHeaders], by simp [BotBuilder.sessionHeaders],
    by simp [BotBuilder.sessionHeaders]⟩,
   rfl, rfl, rfl, rfl, rfl, rfl, rfl, rfl, rfl, rfl, rfl, rfl, rfl, rfl, rfl, rfl, rfl, rfl⟩

/-- C4: for every facade method and every 2xx response with a JSON body,
the method returns the decoded body unmodified as a generic value; no
facade validates or transforms the result. -/
theorem facade_2xx_returns_decoded_body (c : BotBuilder) (status : Nat) (body : Json)
    (b w d m file : String) (params meta : List (String × String))
    (data : List (String × Json)) (h2 : 200 ≤ status) (h3 : status < 300) :
    (BotsClient.get c (constNet status body) b).1 = Except.ok body ∧
    (BotsClient.list c (constNet status body) params).1 = Except.ok body ∧
    (BotsClient.create c (constNet status body) data).1 = Except.ok body ∧
    (BotsClient.update c (constNet status body) b data).1 = Except.ok body ∧
    (BotsClient.delete c (constNet status body) b).1 = Except.ok body ∧
    (MessagesClient.send c (constNet status body) data).1 = Except.ok body ∧
    (MessagesClient.list c (constNet status body) b params).1 = Except.ok body ∧
    (MessagesClient.get c (constNet status body) m).1 = Except.ok body ∧
    (KnowledgeClient.list c (constNet status body) params).1 = Except.ok body ∧
    (KnowledgeClient.upload c (constNet status body) file meta).1 = Except.ok body ∧
    (KnowledgeClient.delete c (constNet status body) d).1 = Except.ok body ∧
    (AnalyticsClient.get_overview c (constNet status body) params).1 = Except.ok body ∧
    (AnalyticsClient.get_messages c (constNet status body) params).1 = Except.ok body ∧
    (AnalyticsClient.get_users c (constNet status body) params).1 = Except.ok body ∧
    (WebhooksClient.list c (constNet status body)).1 = Except.ok body ∧
    (WebhooksClient.create c (constNet status body) data).1 = Except.ok body ∧
    (WebhooksClient.update c (constNet status body) w data).1 = Except.ok body ∧
    (WebhooksClient.delete c (constNet status body) w).1 = Except.ok body := by
  have h : status < 400 := by omega
  refine ⟨?_, ?_, ?_, ?_, ?_, ?_, ?_, ?_, ?_, ?_, ?_, ?_, ?_, ?_, ?_, ?_, ?_, ?_⟩ <;>
    exact request_fst_ok _ _ _ _ _ _ _ _ _ h

/-- C4 witness: a 200 response with body having exactly the keys id and
name is returned unmodified by bots.get. -/
theorem facade_2xx_returns_decoded_body_witness :
    (BotsClient.get cEx (constNet 200 bodyEx) "b1").1 = Except.ok bodyEx :=
  (facade_2xx_returns_decoded_body cEx 200 bodyEx "b1" "w1" "d1" "m1" "f" [] [] []
    (by omega) (by omega)).1

/-- C5 counterexample: a 304 response is not 2xx, yet the call does not
fail with an HTTP error — it returns the decoded body, refuting the claim
that every non-2xx status makes the call fail. -/
theorem non_2xx_304_does_not_fail :
    ¬ (200 ≤ 304 ∧ 304 < 300) ∧
    (BotsClient.get cEx (constNet 304 (Json.obj [])) "b1").1 =
      Except.ok (Json.obj []) :=
  ⟨by omega, rfl⟩

/-- C5 (amended): for every facade method and every 4xx or 5xx response
status — the statuses `raise_for_status` treats as errors — the call fails
with an HTTP error exposing the status and body, the error propagates
through the facade unchanged, and exactly one HTTP request is issued even
on failure. -/
theorem facade_4xx_5xx_fails_with_http_error (c : BotBuilder) (status : Nat) (body : Json)
    (b w d m file : String) (params meta : List (String × String))
    (data : List (String × Json)) (h4 : 400 ≤ status) (h6 : status < 600) :
    (BotsClient.get c (constNet status body) b).1 =
        Except.error (HttpError.httpError status body) ∧
    (BotsClient.list c (constNet status body) params).1 =
        Except.error (HttpError.httpError status body) ∧
    (BotsClient.create c (constNet status body) data).1 =
        Except.error (HttpError.httpError status body) ∧
    (BotsClient.update c (constNet status body) b data).1 =
        Except.error (HttpError.httpError status body) ∧
    (BotsClient.delete c (constNet status body) b).1 =
        Except.error (HttpError.httpError status body) ∧
    (MessagesClient.send c (constNet status body) data).1 =
        Except.error (HttpError.httpError status body) ∧
    (MessagesClient.list c (constNet status body) b params).1 =
        Except.error (HttpError.httpError status body) ∧
    (MessagesClient.get c (constNet status body) m).1 =
        Except.error (HttpError.httpError status body) ∧
    (KnowledgeClient.list c (constNet status body) params).1 =
        Except.error (HttpError.httpError status body) ∧
    (KnowledgeClient.upload c (constNet status body) file meta).1 =
        Except.error (HttpError.httpError status body) ∧
    (KnowledgeClient.delete c (constNet status body) d).1 =
        Except.error (HttpError.httpError status body) ∧
    (AnalyticsClient.get_overview c (constNet status body) params).1 =
        Except.error (HttpError.httpError status body) ∧
    (AnalyticsClient.get_messages c (constNet status body) params).1 =
        Except.error (HttpError.httpError status body) ∧
    (AnalyticsClient.get_users c (constNet status body) params).1 =
        Except.error (HttpError.httpError status body) ∧
    (WebhooksClient.list c (constNet status body)).1 =
        Except.error (HttpError.httpError status body) ∧
    (WebhooksClient.create c (constNet status body) data).1 =
        Except.error (HttpError.httpError status body) ∧
    (WebhooksClient.update c (constNet status body) w data).1 =
        Except.error (HttpError.httpError status body) ∧
    (WebhooksClient.delete c (constNet status body) w).1 =
        Except.error (HttpError.httpError status body) ∧
    (∀ (net : Request → HttpResponse) (me e : String) (p : List (String × String))
        (j : Option Json) (f fd : List (String × String)),
      (BotBuilder.request c net me e p j f fd).2.length = 1) := by
  refine ⟨?_, ?_, ?_, ?_, ?_, ?_, ?_, ?_, ?_, ?_, ?_, ?_, ?_, ?_, ?_, ?_, ?_, ?_,
    fun net me e p j f fd => rfl⟩ <;>
    exact request_fst_err _ _ _ _ _ _ _ _ _ h4 h6

/-- C5 amended witness: a 404 response makes bots.get fail with an HTTP
error exposing status 404. -/
theorem facade_4xx_5xx_fails_witness :
    (BotsClient.get cEx (constNet 404 (Json.obj [])) "b1").1 =
      Except.error (HttpError.httpError 404 (Json.obj [])) :=
  (facade_4xx_5xx_fails_with_http_error cEx 404 (Json.obj []) "b1" "w1" "d1" "m1" "f"
    [] [] [] (by omega) (by omega)).1

/-- C7: the stored base URL is the supplied base_url with trailing slashes
stripped, a base URL with a trailing slash strips to the same stored URL as
one without, and every request URL is the exact concatenation of the stored
base URL and the endpoint path. -/
theorem base_url_stripped_and_concatenated (k base : String) (t : Nat) (env : Env)
    (h : k ≠ "") :
    (∃ c : BotBuilder, BotBuilder.init (some k) base t env = Except.ok (c, []) ∧
      c.base_url = pyRstripSlash base) ∧
    pyRstripSlash (base ++ "/") = pyRstripSlash base ∧
    (∀ (c : BotBuilder) (net : Request → HttpResponse) (me e : String)
        (p : List (String × String)) (j : Option Json) (f fd : List (String × String)),
      issuedUrls (BotBuilder.request c net me e p j f fd) = [c.base_url ++ e]) :=
  ⟨⟨_, init_ok_of_truthy k base t env h, rfl⟩, pyRstripSlash_append_slash base,
    fun _ _ _ _ _ _ _ _ => rfl⟩

/-- C7 witness: a trailing-slash base URL is stored stripped. -/
theorem base_url_stripped_witness :
    ∃ c : BotBuilder,
      BotBuilder.init (some "k0") "https://api.botbuilder.com/" 30
          { botbuilder_api_key := none } =
        Except.ok (c, []) ∧
      c.base_url = pyRstripSlash "https://api.botbuilder.com/" :=
  (base_url_stripped_and_concatenated "k0" "https://api.botbuilder.com/" 30
    { botbuilder_api_key := none } (by decide)).1

/-- C8: base_url and timeout default to https://api.botbuilder.com and 30
seconds, and every request is dispatched with timeout equal to the
configured timeout value. -/
theorem defaults_and_timeout_dispatch (k : String) (env : Env) (h : k ≠ "") :
    default_base_url = "https://api.botbuilder.com" ∧
    default_timeout = 30 ∧
    BotBuilder.init (some k) default_base_url default_timeout env =
      Except.ok ({ api_key := k, base_url := "https://api.botbuilder.com",
                   timeout := 30 }, []) ∧
    (∀ (c : BotBuilder) (net : Request → HttpResponse) (me e : String)
        (p : List (String × String)) (j : Option Json) (f fd : List (String × String)),
      issuedTimeouts (BotBuilder.request c net me e p j f fd) = [c.timeout]) := by
  refine ⟨rfl, rfl, ?_, fun _ _ _ _ _ _ _ _ => rfl⟩
  rw [init_ok_of_truthy k default_base_url default_timeout env h]
  rfl

/-- C8 witness: construction with the default arguments stores the default
base URL and timeout. -/
theorem defaults_and_timeout_witness :
    BotBuilder.init (some "k0") default_base_url default_timeout
        { botbuilder_api_key := none } =
      Except.ok ({ api_key := "k0", base_url := "https://api.botbuilder.com",
                   timeout := 30 }, []) :=
  (defaults_and_timeout_dispatch "k0" { botbuilder_api_key := none } (by decide)).2.2.1

/-- C9: successful construction issues zero HTTP requests, for every
combination of constructor arguments and environment. -/
theorem construction_issues_no_requests (api_key : Option String) (base : String)
    (t : Nat) (env : Env) (c : BotBuilder) (tr : List Request)
    (h : BotBuilder.init api_key base t env = Except.ok (c, tr)) : tr = [] := by
  cases hp : pyOrStr api_key env.botbuilder_api_key with
  | none =>
      simp only [BotBuilder.init, hp] at h
      exact Except.noConfusion h
  | some k =>
      simp only [BotBuilder.init, hp] at h
      by_cases hk : k = ""
      · rw [if_pos hk] at h
        exact Except.noConfusion h
      · rw [if_neg hk] at h
        simp only [Except.ok.injEq, Prod.mk.injEq] at h
        exact h.2.symm

/-- C9 witness: a concrete successful construction, whose request list is
empty. -/
theorem construction_issues_no_requests_witness :
    BotBuilder.init (some "k0") "u" 30 { botbuilder_api_key := none } =
      Except.ok ({ api_key := "k0", base_url := "u", timeout := 30 }, []) ∧
    ([] : List Request) = [] :=
  ⟨rfl, construction_issues_no_requests (some "k0") "u" 30 { botbuilder_api_key := none }
    { api_key := "k0", base_url := "u", timeout := 30 } [] rfl⟩

/-- C10: with api_key equal to the empty string (falsy but present) and the
environment variable holding a non-empty key k, construction succeeds with
resolved key k, and every request authenticates with Bearer k: the falsy
explicit argument yields precedence to the environment variable. -/
theorem empty_api_key_arg_defers_to_env (k base : String) (t : Nat) (h : k ≠ "") :
    ∃ c : BotBuilder,
      BotBuilder.init (some "") base t { botbuilder_api_key := some k } =
        Except.ok (c, []) ∧
      c.api_key = k ∧
      ("Authorization", "Bearer " ++ k) ∈ c.sessionHeaders ∧
      (∀ (net : Request → HttpResponse) (me e : String) (p : List (String × String))
          (j : Option Json) (f fd : List (String × String)),
        issuedHeaders (BotBuilder.request c net me e p j f fd) = [c.sessionHeaders]) := by
  refine ⟨_, init_ok_of_env k base t h, rfl, ?_, fun _ _ _ _ _ _ _ => rfl⟩
  simp [BotBuilder.sessionHeaders]

/-- C10 witness: the empty explicit key with environment key "secret". -/
theorem empty_api_key_arg_defers_witness :
    ∃ c : BotBuilder,
      BotBuilder.init (some "") "https://api.botbuilder.com" 30
          { botbuilder_api_key := some "secret" } =
        Except.ok (c, []) ∧
      c.api_key = "secret" ∧
      ("Authorization", "Bearer " ++ "secret") ∈ c.sessionHeaders ∧
      (∀ (net : Request → HttpResponse) (me e : String) (p : List (String × String))
          (j : Option Json) (f fd : List (String × String)),
        issuedHeaders (BotBuilder.request c net me e p j f fd) = [c.sessionHeaders]) :=
  empty_api_key_arg_defers_to_env "secret" "https://api.botbuilder.com" 30 (by decide)

end BotBuilderSdk
